import Mathlib

/-!
Shallow embedding of the scheduling-conflict detection engine of the
`celebration` repository (Angular `EventValidationService`).

Conventions of the embedding:
* Instants (`start_time`, and the "current time" that the service reads via
  `moment.utc()`) are whole minutes since the UTC epoch `1970-01-01T00:00Z`,
  as natural numbers.  The service only ever inspects instants at minute
  granularity (`hours()`/`minutes()`, `add(_, 'minutes')`, `isSame(_, 'day')`,
  `isSame(_, 'minute')`, `format('HH:mm')`, `format('YYYY-MM-DD')`), so this
  loses nothing.
* A UTC calendar date is the day number `t / 1440`; the time of day is
  `t % 1440`; `1970-01-01` was a Thursday, whose moment day number is `4`,
  so the moment `day()` of an instant is `(t / 1440 + 4) % 7`.
* TypeScript `EventCreate` has an optional `id`, persisted `Event` a
  mandatory one; both are embedded as one structure with `id : Option Nat`
  (a persisted event always carries `some id`).
* The service reads the current time (`moment.utc().startOf('day')`) inside
  the recurring-vs-recurring and recurring-vs-one-time comparisons; the
  embedding threads that clock in as an explicit parameter `now`.
-/

namespace Celebration

/-- `dayOrder` from `expandMultiDayRecurringDays`, which is also the content of
`reverseDayMap`: moment day numbers `0..6` map to these abbreviations. -/
def dayOrder : List String := ["SU", "MO", "TU", "WE", "TH", "FR", "SA"]

/-- `reverseDayMap[n]`: the weekday abbreviation of moment day number `n`. -/
def reverseDayMap (n : Nat) : String := dayOrder.getD n ""

/-- moment `day()` of a UTC instant given in minutes since the epoch:
`0 = Sunday, ..., 6 = Saturday`; the epoch day was a Thursday (`4`). -/
def dayOfWeek (t : Nat) : Nat := (t / 1440 + 4) % 7

/-- Event record passed to the engine (`EventBase` plus the id): `start_time`
in minutes since the UTC epoch, `duration` in minutes. -/
structure Event where
  id : Option Nat
  name : String
  start_time : Nat
  duration : Nat
  is_recurring : Bool
  recurring_days : Option (List String)
deriving DecidableEq, Repr

/-- `isMultiDayEvent` from `checkRecurringConflict`: 24 hours or more. -/
def isMultiDayEvent (duration : Nat) : Bool := duration ≥ 1440

/-- `toTotalMinutes` from `checkTimeOverlap`: minutes of `t` relative to the
reference midnight, computed as `daysDiff * 24 * 60 + hours * 60 + minutes`.
moment's `diff(_, 'days')` truncates toward zero; at every call site
`t ≥ referenceDate` and `referenceDate` is a midnight, where truncated
division and this `Nat` division agree. -/
def toTotalMinutes (referenceDate t : Nat) : Nat :=
  (t - referenceDate) / 1440 * 1440 + t % 1440

/-- The five-clause overlap disjunction at the heart of `checkTimeOverlap`:
same start, either start strictly inside the other interval, or either
interval containing the other. -/
def hasOverlapClauses (start1Mins end1Mins start2Mins end2Mins : Nat) : Bool :=
  start1Mins == start2Mins ||
  (start1Mins ≥ start2Mins && start1Mins < end2Mins) ||
  (start2Mins ≥ start1Mins && start2Mins < end1Mins) ||
  (start1Mins ≤ start2Mins && end1Mins ≥ end2Mins) ||
  (start2Mins ≤ start1Mins && end2Mins ≥ end1Mins)

/-- `checkTimeOverlap(start1, end1, start2, end2)`: normalizes the four UTC
instants to total minutes past the midnight of `start1`'s day and applies the
five-clause disjunction. -/
def checkTimeOverlap (start1 end1 start2 end2 : Nat) : Bool :=
  let referenceDate := start1 / 1440 * 1440
  hasOverlapClauses (toTotalMinutes referenceDate start1)
    (toTotalMinutes referenceDate end1)
    (toTotalMinutes referenceDate start2)
    (toTotalMinutes referenceDate end2)

/-- Two-digit zero padding, as in moment's `HH`, `mm`, `MM`, `DD` tokens. -/
def pad2 (n : Nat) : String := if n < 10 then "0" ++ toString n else toString n

/-- Four-digit zero padding, as in moment's `YYYY` token. -/
def pad4 (n : Nat) : String :=
  if n < 10 then "000" ++ toString n
  else if n < 100 then "00" ++ toString n
  else if n < 1000 then "0" ++ toString n
  else toString n

/-- moment `format('HH:mm')` of a UTC instant. -/
def formatHHMM (t : Nat) : String := pad2 (t % 1440 / 60) ++ ":" ++ pad2 (t % 60)

/-- Gregorian `(year, month, day)` of a day count since `1970-01-01`
(the standard era-based civil-from-days computation, restricted to
nonnegative day numbers). -/
def civilFromDays (z : Nat) : Nat × Nat × Nat :=
  let zz := z + 719468
  let era := zz / 146097
  let doe := zz % 146097
  let yoe := (doe - doe / 1460 + doe / 36524 - doe / 146096) / 365
  let y := yoe + era * 400
  let doy := doe - (365 * yoe + yoe / 4 - yoe / 100)
  let mp := (5 * doy + 2) / 153
  let d := doy - (153 * mp + 2) / 5 + 1
  let m := if mp < 10 then mp + 3 else mp - 9
  (if m ≤ 2 then y + 1 else y, m, d)

/-- moment `format('YYYY-MM-DD')` of a UTC instant. -/
def formatDate (t : Nat) : String :=
  let c := civilFromDays (t / 1440)
  pad4 c.1 ++ "-" ++ pad2 c.2.1 ++ "-" ++ pad2 c.2.2

/-- `formatConflictMessage(conflictingEvent, recurringDays?)`.  JavaScript
`recurringDays || conflictingEvent.recurring_days?.join(', ')` falls back when
`recurringDays` is absent or the empty string, and a missing `recurring_days`
list renders as the literal string `undefined` inside the template. -/
def formatConflictMessage (conflictingEvent : Event) (recurringDays : Option String) : String :=
  let baseMessage := "Conflict with event '" ++ conflictingEvent.name ++ "'"
  let timeRange := formatHHMM conflictingEvent.start_time ++ " - " ++
    formatHHMM (conflictingEvent.start_time + conflictingEvent.duration)
  if conflictingEvent.is_recurring then
    let fallback :=
      match conflictingEvent.recurring_days with
      | some ds => String.intercalate ", " ds
      | none => "undefined"
    let rd :=
      match recurringDays with
      | some s => if s = "" then fallback else s
      | none => fallback
    baseMessage ++ " (recurring on " ++ rd ++ ", " ++ timeRange ++ ")"
  else
    baseMessage ++ " (" ++ formatDate conflictingEvent.start_time ++ ", " ++ timeRange ++ ")"

/-- `getCommonDays(list1, list2)`: `list1.filter(day => list2.includes(day))`. -/
def getCommonDays (list1 list2 : List String) : List String :=
  list1.filter (fun day => list2.contains day)

/-- `expanded.add(x)` on a JavaScript `Set` kept as an insertion-ordered list. -/
def insertSet (expanded : List String) (x : String) : List String :=
  if expanded.contains x then expanded else expanded ++ [x]

/-- `(dayOrder.indexOf(day) + 1) % 7`: for a token outside the seven
abbreviations `indexOf` yields `-1`, so the next index is `0` (`SU`). -/
def nextDayIndex (day : String) : Nat :=
  match dayOrder.findIdx? (fun d => d == day) with
  | some i => (i + 1) % 7
  | none => 0

/-- `expandMultiDayRecurringDays(days)`: each day plus the following weekday,
deduplicated in insertion order. -/
def expandMultiDayRecurringDays (days : List String) : List String :=
  days.foldl (fun expanded day =>
    insertSet (insertSet expanded day) (dayOrder.getD (nextDayIndex day) "")) []

/-- `checkRecurringConflict(newEvent, existingEvent)`.  `now` is the value of
`moment.utc()` during the call (Cases 1 and 2 project both events onto the
current day, `now.startOf('day')`).  Case 1 (`both recurring`) ends in
`return null`; Case 2 falls through to the Case 3 guard when it does not
return, which is vacuous there since the existing event is not recurring. -/
def checkRecurringConflict (now : Nat) (newEvent existingEvent : Event) : Option String :=
  let newEventStart := newEvent.start_time
  let existingEventStart := existingEvent.start_time
  let existingEventIsMultiDay := isMultiDayEvent existingEvent.duration
  if newEvent.is_recurring && existingEvent.is_recurring then
    let newEventDays := newEvent.recurring_days.getD []
    let existingEventDays := existingEvent.recurring_days.getD []
    let daysToCheck :=
      if existingEventIsMultiDay then expandMultiDayRecurringDays existingEventDays
      else existingEventDays
    let commonDays := getCommonDays newEventDays daysToCheck
    if commonDays.length > 0 then
      let referenceDate := now / 1440 * 1440
      let newStart := referenceDate + newEventStart % 1440
      let newEnd := newStart + newEvent.duration
      let existingStart := referenceDate + existingEventStart % 1440
      let existingEnd := existingStart + existingEvent.duration
      if checkTimeOverlap newStart newEnd existingStart existingEnd then
        some (formatConflictMessage existingEvent (some (String.intercalate ", " commonDays)))
      else none
    else none
  else
    let case2 : Option String :=
      if newEvent.is_recurring then
        let existingDay := reverseDayMap (dayOfWeek existingEventStart)
        let nextDay := reverseDayMap ((dayOfWeek existingEventStart + 1) % 7)
        let daysToCheck :=
          if existingEventIsMultiDay then [existingDay, nextDay] else [existingDay]
        let hasMatchingDay :=
          (newEvent.recurring_days.getD []).any (fun day => daysToCheck.contains day)
        if hasMatchingDay then
          let referenceDate := now / 1440 * 1440
          let newStart := referenceDate + newEventStart % 1440
          let newEnd := newStart + newEvent.duration
          let existingStart := referenceDate + existingEventStart % 1440
          let existingEnd := existingStart + existingEvent.duration
          if checkTimeOverlap newStart newEnd existingStart existingEnd then
            some (formatConflictMessage existingEvent (some (String.intercalate ", " daysToCheck)))
          else none
        else none
      else none
    match case2 with
    | some c => some c
    | none =>
      if existingEvent.is_recurring then
        let newDay := reverseDayMap (dayOfWeek newEvent.start_time)
        let daysToCheck0 := existingEvent.recurring_days.getD []
        let daysToCheck :=
          if existingEventIsMultiDay then expandMultiDayRecurringDays daysToCheck0
          else daysToCheck0
        if daysToCheck.contains newDay then
          let referenceDate := newEvent.start_time / 1440 * 1440
          let newStart := referenceDate + newEvent.start_time % 1440
          let newEnd := newStart + newEvent.duration
          let existingStart := referenceDate + existingEvent.start_time % 1440
          let existingEnd := existingStart + existingEvent.duration
          if checkTimeOverlap newStart newEnd existingStart existingEnd then
            some (formatConflictMessage existingEvent (some newDay))
          else none
        else none
      else none

/-- `checkEventPairConflict(newEvent, existingEvent)`: both one-time events are
compared directly on the same UTC calendar date; otherwise the recurring
logic runs. -/
def checkEventPairConflict (now : Nat) (newEvent existingEvent : Event) : Option String :=
  if !newEvent.is_recurring && !existingEvent.is_recurring then
    let newStart := newEvent.start_time
    let existingStart := existingEvent.start_time
    let newEnd := newEvent.start_time + newEvent.duration
    let existingEnd := existingEvent.start_time + existingEvent.duration
    let isSameDay := newStart / 1440 == existingStart / 1440
    let hasTimeOverlap :=
      (newStart < existingEnd && newEnd > existingStart) ||
      (existingStart < newEnd && existingEnd > newStart)
    if isSameDay && hasTimeOverlap then
      some (formatConflictMessage existingEvent none)
    else
      none
  else if newEvent.is_recurring || existingEvent.is_recurring then
    checkRecurringConflict now newEvent existingEvent
  else
    none

/-- The `relevantEvents` filter of `checkEventConflicts`: skip the entries
that carry the candidate's own id (the event being updated). -/
def relevantEvents (newEvent : Event) (existingEvents : List Event) : List Event :=
  existingEvents.filter (fun event => !(newEvent.id.isSome && event.id == newEvent.id))

/-- The `for`-loop of `checkEventConflicts`: return the first non-null
pairwise conflict. -/
def findConflict (now : Nat) (newEvent : Event) : List Event → Option String
  | [] => none
  | existingEvent :: rest =>
    match checkEventPairConflict now newEvent existingEvent with
    | some conflict => some conflict
    | none => findConflict now newEvent rest

/-- `checkEventConflicts(newEvent, existingEvents)`: filter out the event
being updated, then report the first pairwise conflict, else `null`. -/
def checkEventConflicts (now : Nat) (newEvent : Event) (existingEvents : List Event) : Option String :=
  findConflict now newEvent (relevantEvents newEvent existingEvents)

/-- An event that claims to recur but has a missing or empty day list
(`recurring_days || []` / `recurring_days?.some` make it act as the empty
set). -/
def hasEmptyRecurringDays (e : Event) : Bool :=
  e.is_recurring && (e.recurring_days.getD []).isEmpty

/-! ### Helper lemmas -/

theorem findConflict_eq_none_iff (now : Nat) (ne : Event) (l : List Event) :
    findConflict now ne l = none ↔ ∀ e ∈ l, checkEventPairConflict now ne e = none := by
  induction l with
  | nil => simp [findConflict]
  | cons x xs ih =>
    cases hx : checkEventPairConflict now ne x with
    | some c => simp [findConflict, hx]
    | none => simp [findConflict, hx, ih]

theorem findConflict_first (now : Nat) (ne : Event) (l : List Event) (e : Event)
    (h : l.find? (fun x => (checkEventPairConflict now ne x).isSome) = some e) :
    findConflict now ne l = checkEventPairConflict now ne e := by
  induction l with
  | nil => simp [List.find?] at h
  | cons x xs ih =>
    cases hx : checkEventPairConflict now ne x with
    | some c =>
      simp only [List.find?_cons, hx, Option.isSome_some, if_true, Option.some.injEq] at h
      subst h
      simp [findConflict, hx]
    | none =>
      simp only [List.find?_cons, hx, Option.isSome_none, Bool.false_eq_true, if_false] at h
      simp [findConflict, hx, ih h]

theorem check_singleton_none (now : Nat) (ne e : Event)
    (h : checkEventPairConflict now ne e = none) :
    checkEventConflicts now ne [e] = none := by
  unfold checkEventConflicts relevantEvents
  cases hf : (!(ne.id.isSome && e.id == ne.id)) with
  | true => simp [List.filter, hf, findConflict, h]
  | false => simp [List.filter, hf, findConflict]

theorem toTotalMinutes_midnight_add (ref x : Nat) (h : ref % 1440 = 0) :
    toTotalMinutes ref (ref + x) = x := by
  unfold toTotalMinutes
  omega

theorem checkTimeOverlap_offsets (ref t1 d1 t2 d2 : Nat) (h : ref % 1440 = 0)
    (h1 : t1 < 1440) :
    checkTimeOverlap (ref + t1) (ref + t1 + d1) (ref + t2) (ref + t2 + d2) =
      hasOverlapClauses t1 (t1 + d1) t2 (t2 + d2) := by
  have href : (ref + t1) / 1440 * 1440 = ref := by omega
  simp only [checkTimeOverlap, href]
  rw [show ref + t1 + d1 = ref + (t1 + d1) by omega,
    show ref + t2 + d2 = ref + (t2 + d2) by omega,
    toTotalMinutes_midnight_add ref t1 h, toTotalMinutes_midnight_add ref (t1 + d1) h,
    toTotalMinutes_midnight_add ref t2 h, toTotalMinutes_midnight_add ref (t2 + d2) h]

theorem pair_none_of_nonrec_diff_day (now : Nat) (A B : Event)
    (hA : A.is_recurring = false) (hB : B.is_recurring = false)
    (hd : A.start_time / 1440 ≠ B.start_time / 1440) :
    checkEventPairConflict now A B = none := by
  have hbeq : (A.start_time / 1440 == B.start_time / 1440) = false := by
    simpa using hd
  simp [checkEventPairConflict, hA, hB, hbeq]

/-! ### Claim theorems -/

/-- C1: `checkEventConflicts` returns `null` iff no event surviving the
self-id filter pairwise-conflicts with the candidate, and when some event
does, it returns the pairwise conflict message of the first such event in
list order. -/
theorem checkEventConflicts_none_iff_first (now : Nat) (newEvent : Event)
    (existingEvents : List Event) :
    (checkEventConflicts now newEvent existingEvents = none ↔
      ∀ e ∈ relevantEvents newEvent existingEvents,
        checkEventPairConflict now newEvent e = none) ∧
    (∀ e, (relevantEvents newEvent existingEvents).find?
          (fun x => (checkEventPairConflict now newEvent x).isSome) = some e →
      checkEventConflicts now newEvent existingEvents =
        checkEventPairConflict now newEvent e) := by
  constructor
  · exact findConflict_eq_none_iff now newEvent _
  · intro e h
    exact findConflict_first now newEvent _ e h

/-- Witness for C1 at a concrete overlapping one-time pair. -/
theorem checkEventConflicts_none_iff_first_witness :
    checkEventConflicts 0 ⟨some 3, "N", 7260, 30, false, none⟩
        [⟨some 4, "O", 7200, 90, false, none⟩] =
      checkEventPairConflict 0 ⟨some 3, "N", 7260, 30, false, none⟩
        ⟨some 4, "O", 7200, 90, false, none⟩ :=
  (checkEventConflicts_none_iff_first 0 ⟨some 3, "N", 7260, 30, false, none⟩
    [⟨some 4, "O", 7200, 90, false, none⟩]).2 ⟨some 4, "O", 7200, 90, false, none⟩ (by rfl)

/-- C2: on positive-width intervals the five-clause disjunction of
`checkTimeOverlap` agrees with the standard half-open intersection test
`s1 < e2 AND s2 < e1` (identical starts are then always an overlap). -/
theorem hasOverlapClauses_iff_intersect (s1 e1 s2 e2 : Nat)
    (h1 : s1 < e1) (h2 : s2 < e2) :
    hasOverlapClauses s1 e1 s2 e2 = true ↔ (s1 < e2 ∧ s2 < e1) := by
  simp only [hasOverlapClauses, Bool.or_eq_true, Bool.and_eq_true, beq_iff_eq,
    decide_eq_true_eq, ge_iff_le]
  omega

/-- Witness for C2 at a concrete pair of positive-width intervals. -/
theorem hasOverlapClauses_iff_intersect_witness :
    (0 : Nat) < 10 ∧ (5 : Nat) < 12 ∧
      (hasOverlapClauses 0 10 5 12 = true ↔ ((0 : Nat) < 12 ∧ (5 : Nat) < 10)) :=
  ⟨by decide, by decide, hasOverlapClauses_iff_intersect 0 10 5 12 (by decide) (by decide)⟩

/-- C5: two one-time events whose starts fall on different UTC calendar dates
never conflict, in either candidate role, whatever the durations. -/
theorem different_dates_no_conflict (now : Nat) (A B : Event)
    (hA : A.is_recurring = false) (hB : B.is_recurring = false)
    (hd : A.start_time / 1440 ≠ B.start_time / 1440) :
    checkEventConflicts now A [B] = none ∧ checkEventConflicts now B [A] = none :=
  ⟨check_singleton_none _ _ _ (pair_none_of_nonrec_diff_day now A B hA hB hd),
   check_singleton_none _ _ _ (pair_none_of_nonrec_diff_day now B A hB hA (Ne.symm hd))⟩

/-- Witness for C5: a 25-hour event on 1970-01-05 against an event on
1970-01-06. -/
theorem different_dates_no_conflict_witness :
    (⟨some 1, "A", 5760, 1500, false, none⟩ : Event).is_recurring = false ∧
    (5760 : Nat) / 1440 ≠ (7230 : Nat) / 1440 ∧
    checkEventConflicts 0 ⟨some 1, "A", 5760, 1500, false, none⟩
        [⟨some 2, "B", 7230, 30, false, none⟩] = none ∧
    checkEventConflicts 0 ⟨some 2, "B", 7230, 30, false, none⟩
        [⟨some 1, "A", 5760, 1500, false, none⟩] = none := by
  refine ⟨rfl, by decide, ?_, ?_⟩
  · exact (different_dates_no_conflict 0 ⟨some 1, "A", 5760, 1500, false, none⟩
      ⟨some 2, "B", 7230, 30, false, none⟩ rfl rfl (by decide)).1
  · exact (different_dates_no_conflict 0 ⟨some 1, "A", 5760, 1500, false, none⟩
      ⟨some 2, "B", 7230, 30, false, none⟩ rfl rfl (by decide)).2

/-- Counterexample to C7 as stated: when the candidate carries the same id as
the listed event, the identical-start pair is skipped by the self-exclusion
filter and no conflict is reported. -/
theorem identical_start_self_id_no_conflict :
    (⟨some 7, "E", 1000, 60, false, none⟩ : Event).duration > 0 ∧
    (⟨some 7, "E", 1000, 60, false, none⟩ : Event).is_recurring = false ∧
    checkEventConflicts 0 ⟨some 7, "E", 1000, 60, false, none⟩
      [⟨some 7, "E", 1000, 60, false, none⟩] = none :=
  ⟨by decide, rfl, rfl⟩

/-- C7 (amended): one-time events with identical start instants and positive
durations always conflict, provided the candidate does not carry the listed
event's id (otherwise the entry is skipped as the event being updated). -/
theorem identical_start_conflict (now : Nat) (A B : Event)
    (hA : A.is_recurring = false) (hB : B.is_recurring = false)
    (hs : A.start_time = B.start_time)
    (hdA : 0 < A.duration) (hdB : 0 < B.duration)
    (hid : B.id = none ∨ A.id ≠ B.id) :
    checkEventConflicts now B [A] ≠ none := by
  have hkeep : (!(B.id.isSome && A.id == B.id)) = true := by
    rcases hid with h | h
    · simp [h]
    · have hf : (A.id == B.id) = false := by
        rw [beq_eq_false_iff_ne]
        exact h
      simp [hf]
  have hrel : relevantEvents B [A] = [A] := by
    unfold relevantEvents
    simp [List.filter, hkeep]
  have e1 : A.start_time < A.start_time + A.duration := by omega
  have e2 : A.start_time + B.duration > A.start_time := by omega
  have hpair : checkEventPairConflict now B A = some (formatConflictMessage A none) := by
    simp only [checkEventPairConflict, hA, hB, ← hs]
    simp [e1, e2]
  unfold checkEventConflicts
  rw [hrel]
  simp [findConflict, hpair]

/-- Witness for C7 (amended) at a concrete identical-start pair with distinct
ids. -/
theorem identical_start_conflict_witness :
    (1000 : Nat) = 1000 ∧ (0 : Nat) < 60 ∧
    checkEventConflicts 0 ⟨some 8, "F", 1000, 45, false, none⟩
      [⟨some 7, "E", 1000, 60, false, none⟩] ≠ none :=
  ⟨rfl, by decide,
    identical_start_conflict 0 ⟨some 7, "E", 1000, 60, false, none⟩
      ⟨some 8, "F", 1000, 45, false, none⟩ rfl rfl rfl (by decide) (by decide)
      (Or.inr (by decide))⟩

/-- C8: when the candidate carries an id, entries with that id never influence
the outcome; the result equals the check against the list with them removed. -/
theorem self_id_entries_excluded (now : Nat) (newEvent : Event) (l : List Event)
    (i : Nat) (h : newEvent.id = some i) :
    checkEventConflicts now newEvent l =
      checkEventConflicts now newEvent (l.filter (fun e => !(e.id == some i))) := by
  unfold checkEventConflicts
  have h1 : relevantEvents newEvent l = l.filter (fun e => !(e.id == some i)) := by
    unfold relevantEvents
    rw [h]
    exact List.filter_congr (fun e _ => by simp)
  have h2 : relevantEvents newEvent (l.filter (fun e => !(e.id == some i))) =
      (l.filter (fun e => !(e.id == some i))).filter (fun e => !(e.id == some i)) := by
    unfold relevantEvents
    rw [h]
    exact List.filter_congr (fun e _ => by simp)
  rw [h1, h2, List.filter_filter]
  simp

/-- Witness for C8: updating event id 7 against a list still containing its
prior state. -/
theorem self_id_entries_excluded_witness :
    checkEventConflicts 0 ⟨some 7, "E2", 1000, 60, false, none⟩
        [⟨some 7, "E", 1000, 60, false, none⟩, ⟨some 8, "F", 90000, 30, false, none⟩] =
      checkEventConflicts 0 ⟨some 7, "E2", 1000, 60, false, none⟩
        ([⟨some 7, "E", 1000, 60, false, none⟩,
          ⟨some 8, "F", 90000, 30, false, none⟩].filter (fun e => !(e.id == some 7))) :=
  self_id_entries_excluded 0 ⟨some 7, "E2", 1000, 60, false, none⟩
    [⟨some 7, "E", 1000, 60, false, none⟩, ⟨some 8, "F", 90000, 30, false, none⟩] 7 rfl

/-- C9: a check in which an event carries a malformed weekday token does not
fail; the token is treated as an ordinary non-matching string and the call
silently returns the no-conflict result even at an identical time of day. -/
theorem malformed_day_token_silent_null :
    dayOrder.contains "XX" = false ∧
    checkEventConflicts 0 ⟨some 1, "New", 7200, 60, false, none⟩
      [⟨some 2, "Bad", 7200, 60, true, some ["XX"]⟩] = none :=
  ⟨rfl, rfl⟩

theorem getCommonDays_nil_right (l : List String) : getCommonDays l [] = [] := by
  simp [getCommonDays]

theorem pair_none_of_rec_rec_no_common (now : Nat) (A B : Event)
    (hA : A.is_recurring = true) (hB : B.is_recurring = true)
    (hAB : getCommonDays (A.recurring_days.getD [])
        (if isMultiDayEvent B.duration then
          expandMultiDayRecurringDays (B.recurring_days.getD [])
         else B.recurring_days.getD []) = []) :
    checkEventPairConflict now A B = none := by
  simp only [checkEventPairConflict, checkRecurringConflict, hA, hB]
  simp [hAB]

/-- Counterexample to C4 as stated: the raw day sets {TU} and {MO} are
disjoint, yet the existing multi-day (25h) event on MO spills into TU and a
conflict is reported. -/
theorem disjoint_days_multiday_conflict :
    getCommonDays ["TU"] ["MO"] = [] ∧ getCommonDays ["MO"] ["TU"] = [] ∧
    isMultiDayEvent (⟨some 2, "B", 5760, 1500, true, some ["MO"]⟩ : Event).duration = true ∧
    checkEventConflicts 0 ⟨some 1, "A", 7200, 30, true, some ["TU"]⟩
      [⟨some 2, "B", 5760, 1500, true, some ["MO"]⟩] ≠ none := by
  refine ⟨rfl, rfl, rfl, ?_⟩
  decide

/-- C4 (amended): two recurring events do not conflict when their day sets
are disjoint even after the multi-day expansion of the existing event's days
(the following weekday is added for a duration of 1440 or more); for
durations below 1440 this is plain disjointness of the `recurringDays`
sets. -/
theorem disjoint_expanded_days_no_conflict (now : Nat) (A B : Event)
    (hA : A.is_recurring = true) (hB : B.is_recurring = true)
    (hAB : getCommonDays (A.recurring_days.getD [])
        (if isMultiDayEvent B.duration then
          expandMultiDayRecurringDays (B.recurring_days.getD [])
         else B.recurring_days.getD []) = [])
    (hBA : getCommonDays (B.recurring_days.getD [])
        (if isMultiDayEvent A.duration then
          expandMultiDayRecurringDays (A.recurring_days.getD [])
         else A.recurring_days.getD []) = []) :
    checkEventConflicts now A [B] = none ∧ checkEventConflicts now B [A] = none :=
  ⟨check_singleton_none _ _ _ (pair_none_of_rec_rec_no_common now A B hA hB hAB),
   check_singleton_none _ _ _ (pair_none_of_rec_rec_no_common now B A hB hA hBA)⟩

/-- Witness for C4 (amended): {MO} against a 25-hour {WE} event, whose
expansion {WE, TH} is still disjoint from {MO}. -/
theorem disjoint_expanded_days_no_conflict_witness :
    checkEventConflicts 0 ⟨some 1, "A", 5760, 30, true, some ["MO"]⟩
        [⟨some 2, "B", 8640, 1500, true, some ["WE"]⟩] = none ∧
    checkEventConflicts 0 ⟨some 2, "B", 8640, 1500, true, some ["WE"]⟩
        [⟨some 1, "A", 5760, 30, true, some ["MO"]⟩] = none :=
  disjoint_expanded_days_no_conflict 0 ⟨some 1, "A", 5760, 30, true, some ["MO"]⟩
    ⟨some 2, "B", 8640, 1500, true, some ["WE"]⟩ rfl rfl (by decide) (by decide)

theorem pair_none_of_empty_left (now : Nat) (ne e : Event)
    (h : hasEmptyRecurringDays ne = true) :
    checkEventPairConflict now ne e = none := by
  rw [hasEmptyRecurringDays, Bool.and_eq_true] at h
  have hrec : ne.is_recurring = true := h.1
  have hdays : ne.recurring_days.getD [] = [] := by
    have := h.2
    rwa [List.isEmpty_iff] at this
  cases he : e.is_recurring with
  | true =>
    simp [checkEventPairConflict, checkRecurringConflict, hrec, he, hdays, getCommonDays]
  | false =>
    simp [checkEventPairConflict, checkRecurringConflict, hrec, he, hdays]

theorem pair_none_of_empty_right (now : Nat) (ne e : Event)
    (h : hasEmptyRecurringDays e = true) :
    checkEventPairConflict now ne e = none := by
  rw [hasEmptyRecurringDays, Bool.and_eq_true] at h
  have hrec : e.is_recurring = true := h.1
  have hdays : e.recurring_days.getD [] = [] := by
    have := h.2
    rwa [List.isEmpty_iff] at this
  cases hne : ne.is_recurring with
  | true =>
    simp [checkEventPairConflict, checkRecurringConflict, hrec, hne, hdays,
      expandMultiDayRecurringDays, getCommonDays_nil_right]
  | false =>
    simp [checkEventPairConflict, checkRecurringConflict, hrec, hne, hdays,
      expandMultiDayRecurringDays]

theorem findConflict_filter_nondegenerate (now : Nat) (ne : Event) (m : List Event) :
    findConflict now ne m =
      findConflict now ne (m.filter (fun e => !(hasEmptyRecurringDays e))) := by
  induction m with
  | nil => rfl
  | cons x xs ih =>
    cases hdeg : hasEmptyRecurringDays x with
    | true =>
      have hx : checkEventPairConflict now ne x = none :=
        pair_none_of_empty_right now ne x hdeg
      simp [findConflict, List.filter_cons, hdeg, hx, ih]
    | false =>
      cases hx : checkEventPairConflict now ne x with
      | some c => simp [findConflict, List.filter_cons, hdeg, hx]
      | none => simp [findConflict, List.filter_cons, hdeg, hx, ih]

/-- C10: an event flagged recurring whose day list is missing or empty acts
as the empty day set: as candidate the whole check returns `null`, and as a
list entry it contributes nothing — the result equals the check against the
list with such entries removed, so the function returns normally. -/
theorem empty_recurring_days_harmless (now : Nat) (ne : Event) (l : List Event) :
    (hasEmptyRecurringDays ne = true → checkEventConflicts now ne l = none) ∧
    checkEventConflicts now ne l =
      checkEventConflicts now ne (l.filter (fun e => !(hasEmptyRecurringDays e))) := by
  constructor
  · intro h
    unfold checkEventConflicts
    rw [findConflict_eq_none_iff]
    intro e _
    exact pair_none_of_empty_left now ne e h
  · unfold checkEventConflicts relevantEvents
    have hcomm :
        (l.filter (fun e => !(hasEmptyRecurringDays e))).filter
            (fun event => !(ne.id.isSome && event.id == ne.id)) =
          (l.filter (fun event => !(ne.id.isSome && event.id == ne.id))).filter
            (fun e => !(hasEmptyRecurringDays e)) := by
      rw [List.filter_filter, List.filter_filter]
      exact List.filter_congr (fun e _ => by rw [Bool.and_comm])
    rw [hcomm]
    exact findConflict_filter_nondegenerate now ne _

/-- Witness for C10: a recurring candidate with an empty day list checked
against an event at the same instant yields `null`. -/
theorem empty_recurring_days_harmless_witness :
    hasEmptyRecurringDays ⟨some 1, "D", 7200, 60, true, some []⟩ = true ∧
    checkEventConflicts 0 ⟨some 1, "D", 7200, 60, true, some []⟩
      [⟨some 2, "O", 7200, 60, false, none⟩] = none :=
  ⟨rfl, (empty_recurring_days_harmless 0 ⟨some 1, "D", 7200, 60, true, some []⟩
    [⟨some 2, "O", 7200, 60, false, none⟩]).1 rfl⟩

/-- Counterexample to C3 as stated: with the recurring event (on MO, 25h,
anchored at Monday midnight) as the candidate and the Tuesday 00:30 one-time
event in the list, the check reports no conflict — the candidate's recurring
days are matched only against the one-time event's own weekday, which is not
expanded unless the one-time event itself is multi-day. -/
theorem multiday_recurring_candidate_no_conflict :
    dayOfWeek 5760 = 1 ∧ dayOfWeek 7230 = 2 ∧ (7230 : Nat) % 1440 < 60 ∧
    (⟨some 1, "R", 5760, 1500, true, some ["MO"]⟩ : Event).duration = 1500 ∧
    checkEventConflicts 0 ⟨some 1, "R", 5760, 1500, true, some ["MO"]⟩
      [⟨some 2, "T", 7230, 30, false, none⟩] = none :=
  ⟨rfl, rfl, by decide, rfl, rfl⟩

/-- C3 (amended): a recurring MO event with duration 1500 whose anchor
time-of-day is no later than the Tuesday one-time event's time-of-day (within
the first 60 minutes past midnight) conflicts when the one-time event is the
candidate; with the recurring event as candidate no conflict is reported. -/
theorem multiday_MO_recurring_vs_tuesday (now : Nat) (R T : Event)
    (hRrec : R.is_recurring = true) (hRdays : R.recurring_days = some ["MO"])
    (hRdur : R.duration = 1500)
    (hTrec : T.is_recurring = false)
    (hTU : dayOfWeek T.start_time = 2) (_hTod : T.start_time % 1440 < 60)
    (hAnchor : R.start_time % 1440 ≤ T.start_time % 1440)
    (hid : T.id = none ∨ R.id ≠ T.id) :
    checkEventConflicts now T [R] ≠ none ∧ checkEventConflicts now R [T] = none := by
  constructor
  · have hkeep : (!(T.id.isSome && R.id == T.id)) = true := by
      rcases hid with h | h
      · simp [h]
      · have hf : (R.id == T.id) = false := by
          rw [beq_eq_false_iff_ne]
          exact h
        simp [hf]
    have hrel : relevantEvents T [R] = [R] := by
      unfold relevantEvents
      simp [List.filter, hkeep]
    have hmd : isMultiDayEvent R.duration = true := by
      rw [hRdur]
      rfl
    have hday : reverseDayMap (dayOfWeek T.start_time) = "TU" := by
      rw [hTU]
      rfl
    have hov : checkTimeOverlap (T.start_time / 1440 * 1440 + T.start_time % 1440)
        (T.start_time / 1440 * 1440 + T.start_time % 1440 + T.duration)
        (T.start_time / 1440 * 1440 + R.start_time % 1440)
        (T.start_time / 1440 * 1440 + R.start_time % 1440 + R.duration) = true := by
      rw [checkTimeOverlap_offsets (T.start_time / 1440 * 1440) (T.start_time % 1440)
        T.duration (R.start_time % 1440) R.duration (by omega) (by omega)]
      simp only [hasOverlapClauses, Bool.or_eq_true, Bool.and_eq_true, beq_iff_eq,
        decide_eq_true_eq, ge_iff_le]
      omega
    have step1 : checkEventPairConflict now T R = checkRecurringConflict now T R := by
      simp [checkEventPairConflict, hTrec, hRrec]
    have step2 : checkRecurringConflict now T R = some (formatConflictMessage R (some "TU")) := by
      simp [checkRecurringConflict, hTrec, hRrec, hRdays, hmd, hday, hov]
      decide
    unfold checkEventConflicts
    rw [hrel]
    simp [findConflict, step1, step2]
  · have step1 : checkEventPairConflict now R T = checkRecurringConflict now R T := by
      simp [checkEventPairConflict, hTrec, hRrec]
    have hpair : checkEventPairConflict now R T = none := by
      rw [step1]
      cases hTd : isMultiDayEvent T.duration with
      | true =>
        simp [checkRecurringConflict, hTrec, hRrec, hRdays, hTU, hTd, reverseDayMap, dayOrder]
      | false =>
        simp [checkRecurringConflict, hTrec, hRrec, hRdays, hTU, hTd, reverseDayMap, dayOrder]
    exact check_singleton_none now R T hpair

/-- Witness for C3 (amended) at the concrete pair from the spec scenario:
MO 00:00 anchor, 25 hours, against Tuesday 00:30 for 30 minutes. -/
theorem multiday_MO_recurring_vs_tuesday_witness :
    dayOfWeek 7230 = 2 ∧ (7230 : Nat) % 1440 < 60 ∧
    (5760 : Nat) % 1440 ≤ (7230 : Nat) % 1440 ∧
    (checkEventConflicts 0 ⟨some 2, "T", 7230, 30, false, none⟩
        [⟨some 1, "R", 5760, 1500, true, some ["MO"]⟩] ≠ none ∧
      checkEventConflicts 0 ⟨some 1, "R", 5760, 1500, true, some ["MO"]⟩
        [⟨some 2, "T", 7230, 30, false, none⟩] = none) :=
  ⟨rfl, by decide, by decide,
    multiday_MO_recurring_vs_tuesday 0 ⟨some 1, "R", 5760, 1500, true, some ["MO"]⟩
      ⟨some 2, "T", 7230, 30, false, none⟩ rfl rfl rfl rfl rfl (by decide) (by decide)
      (Or.inr (by decide))⟩

/-- C6: when exactly one of the pair is recurring, the pairwise check result
is invariant under changing the recurring event's anchor start date as long
as its UTC time-of-day is preserved, in both candidate/existing roles. -/
theorem recurring_anchor_date_irrelevant (now t1 t1' dur1 t2 dur2 : Nat)
    (id1 id2 : Option Nat) (n1 n2 : String) (days1 days2 : Option (List String))
    (h : t1' % 1440 = t1 % 1440) :
    (checkEventPairConflict now ⟨id1, n1, t1', dur1, true, days1⟩
        ⟨id2, n2, t2, dur2, false, days2⟩ =
      checkEventPairConflict now ⟨id1, n1, t1, dur1, true, days1⟩
        ⟨id2, n2, t2, dur2, false, days2⟩) ∧
    (checkEventPairConflict now ⟨id2, n2, t2, dur2, false, days2⟩
        ⟨id1, n1, t1', dur1, true, days1⟩ =
      checkEventPairConflict now ⟨id2, n2, t2, dur2, false, days2⟩
        ⟨id1, n1, t1, dur1, true, days1⟩) := by
  have h60 : t1' % 60 = t1 % 60 := by omega
  have hA : (t1' + dur1) % 1440 = (t1 + dur1) % 1440 := by omega
  have hA60 : (t1' + dur1) % 60 = (t1 + dur1) % 60 := by omega
  constructor
  · simp only [checkEventPairConflict, checkRecurringConflict, Bool.not_true, Bool.not_false,
      Bool.false_and, Bool.and_false, Bool.true_and, Bool.and_true, Bool.false_or, Bool.or_false,
      Bool.true_or, Bool.or_true, Bool.false_eq_true, if_true, if_false, ite_true, ite_false, h]
  · simp only [checkEventPairConflict, checkRecurringConflict, formatConflictMessage, formatHHMM,
      Bool.not_true, Bool.not_false,
      Bool.false_and, Bool.and_false, Bool.true_and, Bool.and_true, Bool.false_or, Bool.or_false,
      Bool.true_or, Bool.or_true, Bool.false_eq_true, if_true, if_false, ite_true, ite_false,
      h, h60, hA, hA60]

/-- Witness for C6: moving a recurring event's anchor exactly one week later
(same time-of-day) leaves both pairwise results unchanged. -/
theorem recurring_anchor_date_irrelevant_witness :
    (15840 : Nat) % 1440 = (5760 : Nat) % 1440 ∧
    ((checkEventPairConflict 0 ⟨some 1, "R", 15840, 60, true, some ["TU"]⟩
        ⟨some 2, "T", 7200, 30, false, none⟩ =
      checkEventPairConflict 0 ⟨some 1, "R", 5760, 60, true, some ["TU"]⟩
        ⟨some 2, "T", 7200, 30, false, none⟩) ∧
     (checkEventPairConflict 0 ⟨some 2, "T", 7200, 30, false, none⟩
        ⟨some 1, "R", 15840, 60, true, some ["TU"]⟩ =
      checkEventPairConflict 0 ⟨some 2, "T", 7200, 30, false, none⟩
        ⟨some 1, "R", 5760, 60, true, some ["TU"]⟩)) :=
  ⟨by decide,
    recurring_anchor_date_irrelevant 0 5760 15840 60 7200 30 (some 1) (some 2) "R" "T"
      (some ["TU"]) none (by decide)⟩

end Celebration
